import Mathlib

/-!
Verification development for the result type-casting compiler of the
clickhouse_ndc connector (`sql/query_builder/typecasting.rs`).

The request model (queries, fields, nested selectors, aggregates,
relationships) and the builder functions are shallow embeddings of the
source. The ClickHouse type AST, its renderer, and the type-definition
model from the `common` crate are modelled from the specification, as
marked on each definition.
-/

namespace NdcClickhouse

/-- Identifiers of the ClickHouse type grammar: bare or double-quoted. -/
inductive Identifier where
| Unquoted (s : String)
| DoubleQuoted (s : String)
deriving DecidableEq, Repr

/-- Modelled from the spec: the underlying string of an identifier. -/
def Identifier.value : Identifier → String
| .Unquoted s => s
| .DoubleQuoted s => s

/-- Modelled from the spec: rendering of an identifier, bare or double-quoted. -/
def Identifier.to_string : Identifier → String
| .Unquoted s => s
| .DoubleQuoted s => "\"" ++ s ++ "\""

/-- The ClickHouse type AST consumed by the type-casting compiler:
scalars, Nullable, Array, Map, and Tuple with optionally named members. -/
inductive ClickHouseDataType where
| Nothing
| UInt32
| UInt64
| Float64
| Simple (name : String)
| Nullable (t : ClickHouseDataType)
| Array (t : ClickHouseDataType)
| Map (key : ClickHouseDataType) (value : ClickHouseDataType)
| Tuple (elems : List (Option Identifier × ClickHouseDataType))

mutual

/-- Modelled from the spec: the renderer of the ClickHouse type AST into
ClickHouse's SQL type syntax (an external collaborator consumed whole). -/
def ClickHouseDataType.to_string : ClickHouseDataType → String
| .Nothing => "Nothing"
| .UInt32 => "UInt32"
| .UInt64 => "UInt64"
| .Float64 => "Float64"
| .Simple name => name
| .Nullable t => "Nullable(" ++ t.to_string ++ ")"
| .Array t => "Array(" ++ t.to_string ++ ")"
| .Map k v => "Map(" ++ k.to_string ++ ", " ++ v.to_string ++ ")"
| .Tuple elems => "Tuple(" ++ ClickHouseDataType.members_to_string elems ++ ")"

/-- Modelled from the spec: rendering of tuple members, comma separated,
each optionally preceded by its identifier. -/
def ClickHouseDataType.members_to_string :
    List (Option Identifier × ClickHouseDataType) → String
| [] => ""
| [(none, t)] => t.to_string
| [(some id, t)] => id.to_string ++ " " ++ t.to_string
| (none, t) :: m :: rest =>
    t.to_string ++ ", " ++ ClickHouseDataType.members_to_string (m :: rest)
| (some id, t) :: m :: rest =>
    id.to_string ++ " " ++ t.to_string ++ ", "
      ++ ClickHouseDataType.members_to_string (m :: rest)

end

/-- Modelled from the spec: the normalized type-definition algebra of the
`common` crate (`ClickHouseTypeDefinition`), missing from the sources:
Scalar, Nullable, Array, or Object with an ordered field map. -/
inductive ClickHouseTypeDefinition where
| Scalar (t : ClickHouseDataType)
| Nullable (inner : ClickHouseTypeDefinition)
| Array (element_type : ClickHouseTypeDefinition)
| Object (name : String) (fields : List (Identifier × ClickHouseTypeDefinition))

/-- Whether every member of a tuple carries a declared name. -/
def all_members_named (elems : List (Option Identifier × ClickHouseDataType)) : Bool :=
  elems.all (fun m => m.1.isSome)

mutual

/-- Modelled from the spec: classification of a raw data type (§4.1):
`Nullable(X)` becomes `Nullable(classify(X))`, `Array(X)` becomes
`Array(classify(X))`, a named tuple type becomes `Object` with one entry
per declared subfield whose nested name joins the owning path with the
namespace separator, and any other type becomes `Scalar`. -/
def ClickHouseTypeDefinition.from_data_type
    (t : ClickHouseDataType) (ns sep : String) : ClickHouseTypeDefinition :=
  match t with
  | .Nullable x => .Nullable (ClickHouseTypeDefinition.from_data_type x ns sep)
  | .Array x => .Array (ClickHouseTypeDefinition.from_data_type x ns sep)
  | .Tuple elems =>
      if all_members_named elems then
        .Object ns (ClickHouseTypeDefinition.members_from_data_type elems ns sep)
      else
        .Scalar (.Tuple elems)
  | other => .Scalar other

/-- Modelled from the spec: classification of the named members of an
object type, extending the namespace path per subfield. -/
def ClickHouseTypeDefinition.members_from_data_type
    (elems : List (Option Identifier × ClickHouseDataType)) (ns sep : String) :
    List (Identifier × ClickHouseTypeDefinition) :=
  match elems with
  | [] => []
  | (some id, dt) :: rest =>
      (id, ClickHouseTypeDefinition.from_data_type dt (ns ++ sep ++ id.value) sep)
        :: ClickHouseTypeDefinition.members_from_data_type rest ns sep
  | (none, _) :: rest =>
      ClickHouseTypeDefinition.members_from_data_type rest ns sep

end

/-- Modelled from the spec: `from_table_column` derives a type definition
from a schema column's raw type and the owning table context. -/
def ClickHouseTypeDefinition.from_table_column
    (data_type : ClickHouseDataType) (column_alias return_type sep : String) :
    ClickHouseTypeDefinition :=
  ClickHouseTypeDefinition.from_data_type data_type (return_type ++ sep ++ column_alias) sep

mutual

/-- Modelled from the spec: `cast_type` renders a type definition back
into the ClickHouse data type it classifies. -/
def ClickHouseTypeDefinition.cast_type : ClickHouseTypeDefinition → ClickHouseDataType
| .Scalar t => t
| .Nullable inner => .Nullable inner.cast_type
| .Array element_type => .Array element_type.cast_type
| .Object _ fields => .Tuple (ClickHouseTypeDefinition.members_cast_type fields)

/-- Modelled from the spec: member-wise rendering of an object's fields. -/
def ClickHouseTypeDefinition.members_cast_type :
    List (Identifier × ClickHouseTypeDefinition) →
    List (Option Identifier × ClickHouseDataType)
| [] => []
| (id, d) :: rest => (some id, d.cast_type) :: ClickHouseTypeDefinition.members_cast_type rest

end

/-- Modelled from the spec: `non_nullable` strips Nullable wrappers so the
non-nullable shape governs compatibility checks. -/
def ClickHouseTypeDefinition.non_nullable : ClickHouseTypeDefinition → ClickHouseTypeDefinition
| .Nullable inner => inner.non_nullable
| .Scalar t => .Scalar t
| .Array element_type => .Array element_type
| .Object name fields => .Object name fields

/-- Lookup of a column name in an object definition's ordered field map. -/
def object_fields_get
    (fields : List (Identifier × ClickHouseTypeDefinition)) (column : String) :
    Option ClickHouseTypeDefinition :=
  match fields with
  | [] => none
  | (id, td) :: rest =>
      if id.value = column then some td else object_fields_get rest column

/-- Modelled from the spec: the closed set of known single-column
aggregate function identifiers of the `common` crate. -/
inductive ClickHouseSingleColumnAggregateFunction where
| max
| min
| sum
| avg
deriving DecidableEq, Repr

/-- Modelled from the spec: parsing a caller-supplied aggregate function
name into a known identifier, failing on unrecognized names. -/
def ClickHouseSingleColumnAggregateFunction.from_str :
    String → Option ClickHouseSingleColumnAggregateFunction
| "max" => some .max
| "min" => some .min
| "sum" => some .sum
| "avg" => some .avg
| _ => none

/-- Modelled from the spec: the fixed per-scalar-category aggregate
function table (§4.2): min and max preserve the input type, avg yields a
floating type, sum widens small integers. -/
def scalar_aggregate_functions (t : ClickHouseDataType) :
    List (ClickHouseSingleColumnAggregateFunction × ClickHouseDataType) :=
  match t with
  | .UInt32 => [(.max, .UInt32), (.min, .UInt32), (.sum, .UInt64), (.avg, .Float64)]
  | .UInt64 => [(.max, .UInt64), (.min, .UInt64), (.sum, .UInt64), (.avg, .Float64)]
  | .Float64 => [(.max, .Float64), (.min, .Float64), (.sum, .Float64), (.avg, .Float64)]
  | _ => []

/-- Modelled from the spec: the aggregate function table attached to a
type definition; only scalar definitions carry entries. -/
def ClickHouseTypeDefinition.aggregate_functions :
    ClickHouseTypeDefinition →
    List (ClickHouseSingleColumnAggregateFunction × ClickHouseDataType)
| .Scalar t => scalar_aggregate_functions t
| _ => []

/-- A requested aggregate: star count, column count, or a single-column
aggregate naming a column and a function. -/
inductive Aggregate where
| StarCount
| ColumnCount (column : String)
| SingleColumn (column : String) (function : String)
deriving DecidableEq, Repr

/-- A declared relationship, resolved by name; only the target collection
is consumed by the type-casting compiler. -/
structure Relationship where
  target_collection : String
deriving DecidableEq, Repr

mutual

/-- A query request: optional ordered fields and optional ordered aggregates. -/
inductive Query where
| mk (fields : Option (List (String × Field))) (aggregates : Option (List (String × Aggregate)))

/-- A requested field: a column selection with an optional nested
selector, or a relationship selection with a sub-query. -/
inductive Field where
| Column (column : String) (fields : Option NestedField)
| Relationship (query : Query) (relationship : String)

/-- A nested field selector: an object selector mapping aliases to
fields, or an array selector wrapping one sub-selector. -/
inductive NestedField where
| Object (fields : List (String × Field))
| Array (fields : NestedField)

end

/-- The optional ordered field selection of a query. -/
def Query.fields : Query → Option (List (String × Field))
| .mk fs _ => fs

/-- The optional ordered aggregate selection of a query. -/
def Query.aggregates : Query → Option (List (String × Aggregate))
| .mk _ ags => ags

/-- A table's configuration entry: its declared return type name. -/
structure TableConfig where
  return_type : String
deriving DecidableEq, Repr

/-- A parameterized query's configuration entry: its return type name. -/
structure ParameterizedQueryConfig where
  return_type : String
deriving DecidableEq, Repr

/-- A declared object type: its ordered columns and their raw data types. -/
structure TableType where
  columns : List (String × ClickHouseDataType)

/-- The connector configuration consumed by the type-casting compiler. -/
structure ServerConfig where
  tables : List (String × TableConfig)
  queries : List (String × ParameterizedQueryConfig)
  table_types : List (String × TableType)
  namespace_separator : String

/-- The closed taxonomy of translation failures. -/
inductive TypeStringError where
| UnknownTable (table : String)
| UnknownTableType (table : String)
| UnknownColumn (table : String) (column : String)
| UnknownAggregateFunction (table : String) (column : String)
    (data_type : ClickHouseDataType) (function : String)
| MissingRelationship (relationship : String)
| NotSupported (message : String)
| NestedFieldTypeMismatch (expected : String) (got : String)
| MissingNestedField (field_name : String) (object_type : String)

/-- Resolution of a collection alias to its declared return type name:
tables first, then parameterized queries, else `UnknownTable`. -/
def get_return_type (table_alias : String) (config : ServerConfig) :
    Except TypeStringError String :=
  match (config.tables.lookup table_alias).map TableConfig.return_type with
  | some rt => .ok rt
  | none =>
    match (config.queries.lookup table_alias).map ParameterizedQueryConfig.return_type with
    | some rt => .ok rt
    | none => .error (.UnknownTable table_alias)

/-- Lookup of a column's raw data type within a declared return type:
`UnknownTableType` when the type is undeclared, `UnknownColumn` when the
column is absent. -/
def get_column (column_alias return_type : String) (config : ServerConfig) :
    Except TypeStringError ClickHouseDataType :=
  match config.table_types.lookup return_type with
  | none => .error (.UnknownTableType return_type)
  | some table_type =>
    match table_type.columns.lookup column_alias with
    | none => .error (.UnknownColumn return_type column_alias)
    | some column => .ok column

/-- The aggregate shape of a rowset: ordered (alias, result type) pairs. -/
structure AggregatesTypeString where
  aggregates : List (String × ClickHouseDataType)

mutual

/-- The envelope cast-type fragment: optional row shape and optional
aggregate shape. -/
inductive RowsetTypeString where
| mk (rows : Option RowTypeString) (aggregates : Option AggregatesTypeString)

/-- The row cast-type fragment: ordered (alias, field fragment) pairs. -/
inductive RowTypeString where
| mk (fields : List (String × FieldTypeString))

/-- The field cast-type fragment: a relationship rowset, an array, an
object with ordered subfields, or a scalar data type. -/
inductive FieldTypeString where
| Relationship (rowset : RowsetTypeString)
| Array (inner : FieldTypeString)
| Object (fields : List (String × FieldTypeString))
| Scalar (t : ClickHouseDataType)

end

/-- The optional row shape of a rowset fragment. -/
def RowsetTypeString.rows : RowsetTypeString → Option RowTypeString
| .mk r _ => r

/-- The optional aggregate shape of a rowset fragment. -/
def RowsetTypeString.aggregates : RowsetTypeString → Option AggregatesTypeString
| .mk _ a => a

/-- The ordered fields of a row fragment. -/
def RowTypeString.fields : RowTypeString → List (String × FieldTypeString)
| .mk fs => fs

/-- One aggregate entry: star and column counts resolve to UInt32; a
single-column aggregate resolves the column, classifies its type, parses
the function name and looks it up in the type's function table, failing
with `UnknownAggregateFunction` on either step. -/
def AggregatesTypeString.entry (table_alias : String) (config : ServerConfig)
    (al : String) (aggregate : Aggregate) :
    Except TypeStringError (String × ClickHouseDataType) :=
  match aggregate with
  | .StarCount => .ok (al, .UInt32)
  | .ColumnCount _ => .ok (al, .UInt32)
  | .SingleColumn column_alias function =>
    match get_return_type table_alias config with
    | .error e => .error e
    | .ok return_type =>
      match get_column column_alias return_type config with
      | .error e => .error e
      | .ok column_type =>
        let type_definition := ClickHouseTypeDefinition.from_table_column
          column_type column_alias return_type config.namespace_separator
        match ClickHouseSingleColumnAggregateFunction.from_str function with
        | none => .error (.UnknownAggregateFunction
            table_alias column_alias column_type function)
        | some aggregate_function =>
          match type_definition.aggregate_functions.find?
              (fun p => p.1 == aggregate_function) with
          | none => .error (.UnknownAggregateFunction
              table_alias column_alias column_type function)
          | some p => .ok (al, p.2)

/-- The aggregate entries in request order, first error aborting. -/
def AggregatesTypeString.entries (table_alias : String)
    (aggregates : List (String × Aggregate)) (config : ServerConfig) :
    Except TypeStringError (List (String × ClickHouseDataType)) :=
  match aggregates with
  | [] => .ok []
  | (al, aggregate) :: rest =>
    match AggregatesTypeString.entry table_alias config al aggregate with
    | .error e => .error e
    | .ok p =>
      match AggregatesTypeString.entries table_alias rest config with
      | .error e => .error e
      | .ok ps => .ok (p :: ps)

/-- `AggregatesTypeString::new`: builds the aggregate shape for one
collection's requested aggregates. -/
def AggregatesTypeString.new (table_alias : String)
    (aggregates : List (String × Aggregate)) (config : ServerConfig) :
    Except TypeStringError AggregatesTypeString :=
  match AggregatesTypeString.entries table_alias aggregates config with
  | .error e => .error e
  | .ok ps => .ok ⟨ps⟩

mutual

/-- `RowsetTypeString::new`: builds the optional row shape (present iff
the query selects fields) then the optional aggregate shape (present iff
the query selects aggregates), propagating the first error. -/
def RowsetTypeString.new (table_alias : String) (query : Query)
    (relationships : List (String × NdcClickhouse.Relationship)) (config : ServerConfig) :
    Except TypeStringError RowsetTypeString :=
  match query with
  | .mk none none => .ok (.mk none none)
  | .mk (some fields) none =>
    match RowTypeString.new_fields table_alias fields relationships config with
    | .error e => .error e
    | .ok fs => .ok (.mk (some (.mk fs)) none)
  | .mk none (some aggregates) =>
    match AggregatesTypeString.new table_alias aggregates config with
    | .error e => .error e
    | .ok ats => .ok (.mk none (some ats))
  | .mk (some fields) (some aggregates) =>
    match RowTypeString.new_fields table_alias fields relationships config with
    | .error e => .error e
    | .ok fs =>
      match AggregatesTypeString.new table_alias aggregates config with
      | .error e => .error e
      | .ok ats => .ok (.mk (some (.mk fs)) (some ats))

/-- The row fields in request order, first error aborting. -/
def RowTypeString.new_fields (table_alias : String)
    (fields : List (String × Field))
    (relationships : List (String × NdcClickhouse.Relationship)) (config : ServerConfig) :
    Except TypeStringError (List (String × FieldTypeString)) :=
  match fields with
  | [] => .ok []
  | (al, field) :: rest =>
    match RowTypeString.new_field table_alias field relationships config with
    | .error e => .error e
    | .ok ft =>
      match RowTypeString.new_fields table_alias rest relationships config with
      | .error e => .error e
      | .ok fts => .ok ((al, ft) :: fts)

/-- One row field: a column selection resolves the collection's return
type and the column, classifies it, and delegates to the field builder; a
relationship selection resolves the relationship and recurses into the
rowset builder against its target collection. -/
def RowTypeString.new_field (table_alias : String) (field : Field)
    (relationships : List (String × NdcClickhouse.Relationship)) (config : ServerConfig) :
    Except TypeStringError FieldTypeString :=
  match field with
  | .Column column_alias cfields =>
    match get_return_type table_alias config with
    | .error e => .error e
    | .ok return_type =>
      match get_column column_alias return_type config with
      | .error e => .error e
      | .ok column_type =>
        let type_definition := ClickHouseTypeDefinition.from_table_column
          column_type column_alias return_type config.namespace_separator
        match cfields with
        | none => .ok (.Scalar type_definition.cast_type)
        | some nested => FieldTypeString.new_nested
            type_definition nested relationships config
  | .Relationship subquery relationship_name =>
    match relationships.lookup relationship_name with
    | none => .error (.MissingRelationship relationship_name)
    | some relationship =>
      match RowsetTypeString.new relationship.target_collection
          subquery relationships config with
      | .error e => .error e
      | .ok rs => .ok (.Relationship rs)

/-- `FieldTypeString::new` with a present nested selector: the selector
shape is matched against the non-nullable schema shape; legal pairings
recurse, the four illegal pairings fail with `NestedFieldTypeMismatch`
rendering the original type definition as the got side. -/
def FieldTypeString.new_nested (type_definition : ClickHouseTypeDefinition)
    (nested : NestedField)
    (relationships : List (String × NdcClickhouse.Relationship)) (config : ServerConfig) :
    Except TypeStringError FieldTypeString :=
  match type_definition.non_nullable, nested with
  | .Array element_type, .Array subfield_selector =>
    match FieldTypeString.new_nested element_type
        subfield_selector relationships config with
    | .error e => .error e
    | .ok ft => .ok (.Array ft)
  | .Object _ object_fields, .Object subfield_selector =>
    match FieldTypeString.new_subfields type_definition object_fields
        subfield_selector relationships config with
    | .error e => .error e
    | .ok fts => .ok (.Object fts)
  | .Scalar _, .Object _ =>
    .error (.NestedFieldTypeMismatch "Object" type_definition.cast_type.to_string)
  | .Scalar _, .Array _ =>
    .error (.NestedFieldTypeMismatch "Array" type_definition.cast_type.to_string)
  | .Nullable _, .Object _ =>
    .error (.NestedFieldTypeMismatch "Object" type_definition.cast_type.to_string)
  | .Nullable _, .Array _ =>
    .error (.NestedFieldTypeMismatch "Array" type_definition.cast_type.to_string)
  | .Array _, .Object _ =>
    .error (.NestedFieldTypeMismatch "Object" type_definition.cast_type.to_string)
  | .Object _ _, .Array _ =>
    .error (.NestedFieldTypeMismatch "Array" type_definition.cast_type.to_string)

/-- The object subfields in request order, first error aborting. -/
def FieldTypeString.new_subfields (type_definition : ClickHouseTypeDefinition)
    (object_fields : List (Identifier × ClickHouseTypeDefinition))
    (subfields : List (String × Field))
    (relationships : List (String × NdcClickhouse.Relationship)) (config : ServerConfig) :
    Except TypeStringError (List (String × FieldTypeString)) :=
  match subfields with
  | [] => .ok []
  | (al, field) :: rest =>
    match FieldTypeString.new_subfield type_definition object_fields
        field relationships config with
    | .error e => .error e
    | .ok ft =>
      match FieldTypeString.new_subfields type_definition object_fields
          rest relationships config with
      | .error e => .error e
      | .ok fts => .ok ((al, ft) :: fts)

/-- One object subfield: a column selection resolves against the parent
object's declared field map (`MissingNestedField` naming the parent's
rendered type on failure) and recurses into the field builder; a
relationship selection resolves the relationship and recurses into the
rowset builder. -/
def FieldTypeString.new_subfield (type_definition : ClickHouseTypeDefinition)
    (object_fields : List (Identifier × ClickHouseTypeDefinition))
    (field : Field)
    (relationships : List (String × NdcClickhouse.Relationship)) (config : ServerConfig) :
    Except TypeStringError FieldTypeString :=
  match field with
  | .Column column subfield_selector =>
    match object_fields_get object_fields column with
    | none => .error (.MissingNestedField column
        type_definition.cast_type.to_string)
    | some td =>
      match subfield_selector with
      | none => .ok (.Scalar td.cast_type)
      | some nested => FieldTypeString.new_nested td nested relationships config
  | .Relationship subquery relationship_name =>
    match relationships.lookup relationship_name with
    | none => .error (.MissingRelationship relationship_name)
    | some relationship =>
      match RowsetTypeString.new relationship.target_collection
          subquery relationships config with
      | .error e => .error e
      | .ok rs => .ok (.Relationship rs)

end

/-- `FieldTypeString::new`: with no nested selector the field is a leaf
whose cast type is the type definition's own rendered data type;
otherwise the nested selector is checked against the schema shape. -/
def FieldTypeString.new (type_definition : ClickHouseTypeDefinition)
    (fields : Option NestedField)
    (relationships : List (String × NdcClickhouse.Relationship)) (config : ServerConfig) :
    Except TypeStringError FieldTypeString :=
  match fields with
  | none => .ok (.Scalar type_definition.cast_type)
  | some nested => FieldTypeString.new_nested type_definition nested relationships config

/-- `RowTypeString::new`: builds the ordered row shape for one
collection's requested fields. -/
def RowTypeString.new (table_alias : String) (fields : List (String × Field))
    (relationships : List (String × NdcClickhouse.Relationship)) (config : ServerConfig) :
    Except TypeStringError RowTypeString :=
  match RowTypeString.new_fields table_alias fields relationships config with
  | .error e => .error e
  | .ok fs => .ok (.mk fs)

/-- The fixed empty-marker type substituted for tuples with zero members. -/
def empty_marker : ClickHouseDataType :=
  .Map .Nothing .Nothing

/-- `AggregatesTypeString::into_cast_type`: the empty marker when no
aggregates were requested, else a tuple of double-quoted aliases. -/
def AggregatesTypeString.into_cast_type : AggregatesTypeString → ClickHouseDataType
| ⟨[]⟩ => empty_marker
| ⟨(al, t) :: rest⟩ =>
    .Tuple (((al, t) :: rest).map
      (fun p => (some (Identifier.DoubleQuoted p.1), p.2)))

mutual

/-- `RowsetTypeString::into_cast_type`: the four presence cases of the
rows/aggregates envelope. -/
def RowsetTypeString.into_cast_type : RowsetTypeString → ClickHouseDataType
| .mk none none => .Map .Nothing .Nothing
| .mk none (some aggregates) =>
    .Tuple [(some (Identifier.Unquoted "aggregates"), aggregates.into_cast_type)]
| .mk (some rows) none =>
    .Tuple [(some (Identifier.Unquoted "rows"),
      .Array rows.into_cast_type)]
| .mk (some rows) (some aggregates) =>
    .Tuple [(some (Identifier.Unquoted "rows"), .Array rows.into_cast_type),
      (some (Identifier.Unquoted "aggregates"), aggregates.into_cast_type)]

/-- `RowTypeString::into_cast_type`: the empty marker when no fields were
requested, else a tuple of double-quoted aliases. -/
def RowTypeString.into_cast_type : RowTypeString → ClickHouseDataType
| .mk [] => .Map .Nothing .Nothing
| .mk (f :: rest) => .Tuple (fields_into_cast_type (f :: rest))

/-- Member-wise rendering of field fragments under double-quoted aliases. -/
def fields_into_cast_type :
    List (String × FieldTypeString) → List (Option Identifier × ClickHouseDataType)
| [] => []
| (al, ft) :: rest =>
    (some (Identifier.DoubleQuoted al), ft.into_cast_type) :: fields_into_cast_type rest

/-- `FieldTypeString::into_cast_type`: relationships render their rowset,
arrays wrap their element, objects render a tuple of their subfields with
no empty-member substitution, scalars render themselves. -/
def FieldTypeString.into_cast_type : FieldTypeString → ClickHouseDataType
| .Relationship rowset => rowset.into_cast_type
| .Array inner => .Array inner.into_cast_type
| .Object fields => .Tuple (fields_into_cast_type fields)
| .Scalar t => t

end

mutual

/-- The maximal relationship-nesting depth of a query: each relationship
selection consumes one explicit level of the caller-supplied request. -/
def Query.depth : Query → Nat
| .mk none _ => 0
| .mk (some fields) _ => fields_depth fields

/-- The maximal relationship-nesting depth over a field list. -/
def fields_depth : List (String × Field) → Nat
| [] => 0
| (_, f) :: rest => max (field_depth f) (fields_depth rest)

/-- The maximal relationship-nesting depth of one field. -/
def field_depth : Field → Nat
| .Column _ none => 0
| .Column _ (some nested) => nested_depth nested
| .Relationship subquery _ => subquery.depth + 1

/-- The maximal relationship-nesting depth beneath a nested selector. -/
def nested_depth : NestedField → Nat
| .Object fields => fields_depth fields
| .Array fields => nested_depth fields

end

mutual

/-- Fuel-indexed rowset builder: one unit of fuel is consumed at each
rowset entry, so fuel mirrors the relationship-recursion depth; `none`
signals fuel exhaustion. -/
def RowsetTypeString.new_fuel (fuel : Nat) (table_alias : String) (query : Query)
    (relationships : List (String × NdcClickhouse.Relationship)) (config : ServerConfig) :
    Option (Except TypeStringError RowsetTypeString) :=
  match fuel with
  | 0 => none
  | fuel + 1 =>
    match query with
    | .mk none none => some (.ok (.mk none none))
    | .mk (some fields) none =>
      match RowTypeString.new_fields_fuel fuel table_alias fields relationships config with
      | none => none
      | some (.error e) => some (.error e)
      | some (.ok fs) => some (.ok (.mk (some (.mk fs)) none))
    | .mk none (some aggregates) =>
      match AggregatesTypeString.new table_alias aggregates config with
      | .error e => some (.error e)
      | .ok ats => some (.ok (.mk none (some ats)))
    | .mk (some fields) (some aggregates) =>
      match RowTypeString.new_fields_fuel fuel table_alias fields relationships config with
      | none => none
      | some (.error e) => some (.error e)
      | some (.ok fs) =>
        match AggregatesTypeString.new table_alias aggregates config with
        | .error e => some (.error e)
        | .ok ats => some (.ok (.mk (some (.mk fs)) (some ats)))

/-- Fuel-indexed row-field list builder. -/
def RowTypeString.new_fields_fuel (fuel : Nat) (table_alias : String)
    (fields : List (String × Field))
    (relationships : List (String × NdcClickhouse.Relationship)) (config : ServerConfig) :
    Option (Except TypeStringError (List (String × FieldTypeString))) :=
  match fields with
  | [] => some (.ok [])
  | (al, field) :: rest =>
    match RowTypeString.new_field_fuel fuel table_alias field relationships config with
    | none => none
    | some (.error e) => some (.error e)
    | some (.ok ft) =>
      match RowTypeString.new_fields_fuel fuel table_alias rest relationships config with
      | none => none
      | some (.error e) => some (.error e)
      | some (.ok fts) => some (.ok ((al, ft) :: fts))

/-- Fuel-indexed single row-field builder. -/
def RowTypeString.new_field_fuel (fuel : Nat) (table_alias : String) (field : Field)
    (relationships : List (String × NdcClickhouse.Relationship)) (config : ServerConfig) :
    Option (Except TypeStringError FieldTypeString) :=
  match field with
  | .Column column_alias cfields =>
    match get_return_type table_alias config with
    | .error e => some (.error e)
    | .ok return_type =>
      match get_column column_alias return_type config with
      | .error e => some (.error e)
      | .ok column_type =>
        let type_definition := ClickHouseTypeDefinition.from_table_column
          column_type column_alias return_type config.namespace_separator
        match cfields with
        | none => some (.ok (.Scalar type_definition.cast_type))
        | some nested => FieldTypeString.new_nested_fuel fuel
            type_definition nested relationships config
  | .Relationship subquery relationship_name =>
    match relationships.lookup relationship_name with
    | none => some (.error (.MissingRelationship relationship_name))
    | some relationship =>
      match RowsetTypeString.new_fuel fuel relationship.target_collection
          subquery relationships config with
      | none => none
      | some (.error e) => some (.error e)
      | some (.ok rs) => some (.ok (.Relationship rs))

/-- Fuel-indexed nested-selector field builder. -/
def FieldTypeString.new_nested_fuel (fuel : Nat)
    (type_definition : ClickHouseTypeDefinition) (nested : NestedField)
    (relationships : List (String × NdcClickhouse.Relationship)) (config : ServerConfig) :
    Option (Except TypeStringError FieldTypeString) :=
  match type_definition.non_nullable, nested with
  | .Array element_type, .Array subfield_selector =>
    match FieldTypeString.new_nested_fuel fuel element_type
        subfield_selector relationships config with
    | none => none
    | some (.error e) => some (.error e)
    | some (.ok ft) => some (.ok (.Array ft))
  | .Object _ object_fields, .Object subfield_selector =>
    match FieldTypeString.new_subfields_fuel fuel type_definition object_fields
        subfield_selector relationships config with
    | none => none
    | some (.error e) => some (.error e)
    | some (.ok fts) => some (.ok (.Object fts))
  | .Scalar _, .Object _ =>
    some (.error (.NestedFieldTypeMismatch "Object" type_definition.cast_type.to_string))
  | .Scalar _, .Array _ =>
    some (.error (.NestedFieldTypeMismatch "Array" type_definition.cast_type.to_string))
  | .Nullable _, .Object _ =>
    some (.error (.NestedFieldTypeMismatch "Object" type_definition.cast_type.to_string))
  | .Nullable _, .Array _ =>
    some (.error (.NestedFieldTypeMismatch "Array" type_definition.cast_type.to_string))
  | .Array _, .Object _ =>
    some (.error (.NestedFieldTypeMismatch "Object" type_definition.cast_type.to_string))
  | .Object _ _, .Array _ =>
    some (.error (.NestedFieldTypeMismatch "Array" type_definition.cast_type.to_string))

/-- Fuel-indexed object-subfield list builder. -/
def FieldTypeString.new_subfields_fuel (fuel : Nat)
    (type_definition : ClickHouseTypeDefinition)
    (object_fields : List (Identifier × ClickHouseTypeDefinition))
    (subfields : List (String × Field))
    (relationships : List (String × NdcClickhouse.Relationship)) (config : ServerConfig) :
    Option (Except TypeStringError (List (String × FieldTypeString))) :=
  match subfields with
  | [] => some (.ok [])
  | (al, field) :: rest =>
    match FieldTypeString.new_subfield_fuel fuel type_definition object_fields
        field relationships config with
    | none => none
    | some (.error e) => some (.error e)
    | some (.ok ft) =>
      match FieldTypeString.new_subfields_fuel fuel type_definition object_fields
          rest relationships config with
      | none => none
      | some (.error e) => some (.error e)
      | some (.ok fts) => some (.ok ((al, ft) :: fts))

/-- Fuel-indexed single object-subfield builder. -/
def FieldTypeString.new_subfield_fuel (fuel : Nat)
    (type_definition : ClickHouseTypeDefinition)
    (object_fields : List (Identifier × ClickHouseTypeDefinition))
    (field : Field)
    (relationships : List (String × NdcClickhouse.Relationship)) (config : ServerConfig) :
    Option (Except TypeStringError FieldTypeString) :=
  match field with
  | .Column column subfield_selector =>
    match object_fields_get object_fields column with
    | none => some (.error (.MissingNestedField column
        type_definition.cast_type.to_string))
    | some td =>
      match subfield_selector with
      | none => some (.ok (.Scalar td.cast_type))
      | some nested => FieldTypeString.new_nested_fuel fuel td nested relationships config
  | .Relationship subquery relationship_name =>
    match relationships.lookup relationship_name with
    | none => some (.error (.MissingRelationship relationship_name))
    | some relationship =>
      match RowsetTypeString.new_fuel fuel relationship.target_collection
          subquery relationships config with
      | none => none
      | some (.error e) => some (.error e)
      | some (.ok rs) => some (.ok (.Relationship rs))

end

/-- A sample configuration over one collection with a scalar, an array,
and a named-tuple column, used by concrete witnesses. -/
def witness_config : ServerConfig :=
  { tables := [("events", ⟨"events_row"⟩)]
  , queries := []
  , table_types := [("events_row",
      ⟨[("id", .UInt64), ("tags", .Array (.Simple "String")),
        ("obj", .Tuple [(some (.DoubleQuoted "a"), .UInt32)])]⟩)]
  , namespace_separator := "." }

/-- A sample query selecting one field and one aggregate. -/
def c1_query : Query :=
  .mk (some [("id", .Column "id" none)]) (some [("count", .StarCount)])

/-- The rowset fragment built for `c1_query` over `witness_config`. -/
def c1_rowset : RowsetTypeString :=
  .mk (some (.mk [("id", .Scalar .UInt64)])) (some ⟨[("count", .UInt32)]⟩)

/-- A query selecting a named-tuple column with an empty Object selector. -/
def c2_query : Query := .mk (some [("x", .Column "obj" (some (.Object [])))]) none

/-- A query selecting one relationship field whose target is the same
collection, exercising a self-referencing relationship map. -/
def c9_query : Query := .mk (some [("r", .Relationship (.mk none none) "self")]) none

/-- The selector shape named as expected in a mismatch error. -/
def expected_shape : NestedField → String
| .Object _ => "Object"
| .Array _ => "Array"

/-- The four illegal (definition shape, selector shape) pairings. -/
def illegal_pairing : ClickHouseTypeDefinition → NestedField → Prop
| .Scalar _, .Object _ => True
| .Scalar _, .Array _ => True
| .Array _, .Object _ => True
| .Object _ _, .Array _ => True
| _, _ => False

theorem non_nullable_not_nullable :
    ∀ (td inner : ClickHouseTypeDefinition), td.non_nullable ≠ .Nullable inner
| .Scalar _, inner => by simp [ClickHouseTypeDefinition.non_nullable]
| .Nullable i, inner => by
    simpa [ClickHouseTypeDefinition.non_nullable] using non_nullable_not_nullable i inner
| .Array _, inner => by simp [ClickHouseTypeDefinition.non_nullable]
| .Object _ _, inner => by simp [ClickHouseTypeDefinition.non_nullable]

theorem non_nullable_idem :
    ∀ td : ClickHouseTypeDefinition, td.non_nullable.non_nullable = td.non_nullable
| .Scalar _ => rfl
| .Nullable inner => non_nullable_idem inner
| .Array _ => rfl
| .Object _ _ => rfl

theorem entry_alias (table_alias : String) (config : ServerConfig)
    (al : String) (aggregate : Aggregate) (p : String × ClickHouseDataType)
    (h : AggregatesTypeString.entry table_alias config al aggregate = .ok p) :
    p.1 = al := by
  obtain ⟨⟩ | ⟨c⟩ | ⟨c, f⟩ := aggregate
  · simp [AggregatesTypeString.entry] at h; simp [← h]
  · simp [AggregatesTypeString.entry] at h; simp [← h]
  · simp only [AggregatesTypeString.entry] at h
    split at h
    · exact absurd h (by simp)
    · split at h
      · exact absurd h (by simp)
      · split at h
        · exact absurd h (by simp)
        · split at h
          · exact absurd h (by simp)
          · simp at h; simp [← h]

theorem new_fields_aliases (table_alias : String)
    (fields : List (String × Field))
    (relationships : List (String × Relationship)) (config : ServerConfig)
    (fts : List (String × FieldTypeString))
    (h : RowTypeString.new_fields table_alias fields relationships config = .ok fts) :
    fts.map Prod.fst = fields.map Prod.fst := by
  induction fields generalizing fts with
  | nil => simp [RowTypeString.new_fields] at h; simp [← h]
  | cons f rest ih =>
    obtain ⟨al, field⟩ := f
    simp only [RowTypeString.new_fields] at h
    split at h
    · exact absurd h (by simp)
    · split at h
      · exact absurd h (by simp)
      · rename_i fts2 h2
        simp at h
        simp [← h, ih fts2 h2]

theorem entries_aliases (table_alias : String)
    (aggregates : List (String × Aggregate)) (config : ServerConfig)
    (ps : List (String × ClickHouseDataType))
    (h : AggregatesTypeString.entries table_alias aggregates config = .ok ps) :
    ps.map Prod.fst = aggregates.map Prod.fst := by
  induction aggregates generalizing ps with
  | nil => simp [AggregatesTypeString.entries] at h; simp [← h]
  | cons a rest ih =>
    obtain ⟨al, aggregate⟩ := a
    simp only [AggregatesTypeString.entries] at h
    split at h
    · exact absurd h (by simp)
    · rename_i p hp
      split at h
      · exact absurd h (by simp)
      · rename_i ps2 h2
        simp at h
        simp [← h, entry_alias table_alias config al aggregate p hp, ih ps2 h2]

theorem new_subfields_aliases (type_definition : ClickHouseTypeDefinition)
    (object_fields : List (Identifier × ClickHouseTypeDefinition))
    (subfields : List (String × Field))
    (relationships : List (String × Relationship)) (config : ServerConfig)
    (fts : List (String × FieldTypeString))
    (h : FieldTypeString.new_subfields type_definition object_fields subfields
      relationships config = .ok fts) :
    fts.map Prod.fst = subfields.map Prod.fst := by
  induction subfields generalizing fts with
  | nil => simp [FieldTypeString.new_subfields] at h; simp [← h]
  | cons f rest ih =>
    obtain ⟨al, field⟩ := f
    simp only [FieldTypeString.new_subfields] at h
    split at h
    · exact absurd h (by simp)
    · split at h
      · exact absurd h (by simp)
      · rename_i fts2 h2
        simp at h
        simp [← h, ih fts2 h2]

theorem fields_into_cast_type_names (l : List (String × FieldTypeString)) :
    (fields_into_cast_type l).map Prod.fst
      = l.map (fun p => some (Identifier.DoubleQuoted p.1)) := by
  induction l with
  | nil => simp [fields_into_cast_type]
  | cons f rest ih =>
    obtain ⟨al, ft⟩ := f
    simp [fields_into_cast_type, ih]

theorem new_subfield_ok_td_irrelevant
    (td td' : ClickHouseTypeDefinition)
    (object_fields : List (Identifier × ClickHouseTypeDefinition))
    (field : Field)
    (relationships : List (String × NdcClickhouse.Relationship)) (config : ServerConfig)
    (ft : FieldTypeString)
    (h : FieldTypeString.new_subfield td object_fields field relationships config = .ok ft) :
    FieldTypeString.new_subfield td' object_fields field relationships config = .ok ft := by
  rw [FieldTypeString.new_subfield.eq_def] at h
  rw [FieldTypeString.new_subfield.eq_def]
  split at h
  · split at h
    · exact absurd h (by simp)
    · exact h
  · exact h

theorem new_subfields_ok_td_irrelevant
    (subfields : List (String × Field))
    (td td' : ClickHouseTypeDefinition)
    (object_fields : List (Identifier × ClickHouseTypeDefinition))
    (relationships : List (String × NdcClickhouse.Relationship)) (config : ServerConfig)
    (fts : List (String × FieldTypeString))
    (h : FieldTypeString.new_subfields td object_fields subfields relationships config
      = .ok fts) :
    FieldTypeString.new_subfields td' object_fields subfields relationships config
      = .ok fts := by
  induction subfields generalizing fts with
  | nil => simpa [FieldTypeString.new_subfields] using h
  | cons f rest ih =>
    obtain ⟨al, field⟩ := f
    simp only [FieldTypeString.new_subfields] at h
    split at h
    · exact absurd h (by simp)
    · rename_i ft1 heq
      split at h
      · exact absurd h (by simp)
      · rename_i fts2 heq2
        simp at h
        simp only [FieldTypeString.new_subfields]
        rw [new_subfield_ok_td_irrelevant td td' object_fields field
            relationships config ft1 heq]
        rw [ih fts2 heq2]
        simp [← h]

/-- C1: for every query on which the rowset builder succeeds, the cast
type follows the four-case presence table over the query's fields and
aggregates: neither gives the empty marker, only aggregates gives a
one-member tuple named aggregates, only fields gives a one-member tuple
named rows holding an Array of the row type, and both give a two-member
tuple with rows first and aggregates second. -/
theorem C1_presence_table (table_alias : String) (query : Query)
    (relationships : List (String × Relationship)) (config : ServerConfig)
    (r : RowsetTypeString)
    (h : RowsetTypeString.new table_alias query relationships config = .ok r) :
    (query.fields = none → query.aggregates = none →
      r.into_cast_type = .Map .Nothing .Nothing) ∧
    (query.fields = none → query.aggregates.isSome →
      ∃ t, r.into_cast_type = .Tuple [(some (.Unquoted "aggregates"), t)]) ∧
    (query.fields.isSome → query.aggregates = none →
      ∃ t, r.into_cast_type = .Tuple [(some (.Unquoted "rows"), .Array t)]) ∧
    (query.fields.isSome → query.aggregates.isSome →
      ∃ t u, r.into_cast_type = .Tuple
        [(some (.Unquoted "rows"), .Array t), (some (.Unquoted "aggregates"), u)]) := by
  obtain ⟨qf, qa⟩ := query
  cases qf with
  | none =>
    cases qa with
    | none =>
      simp [RowsetTypeString.new] at h
      simp [Query.fields, Query.aggregates, ← h, RowsetTypeString.into_cast_type]
    | some ags =>
      simp only [RowsetTypeString.new] at h
      cases ha : AggregatesTypeString.new table_alias ags config with
      | error e => rw [ha] at h; exact absurd h (by simp)
      | ok ats =>
        rw [ha] at h
        simp at h
        simp [Query.fields, Query.aggregates, ← h, RowsetTypeString.into_cast_type]
  | some fs =>
    cases qa with
    | none =>
      simp only [RowsetTypeString.new] at h
      cases hf : RowTypeString.new_fields table_alias fs relationships config with
      | error e => rw [hf] at h; exact absurd h (by simp)
      | ok flds =>
        rw [hf] at h
        simp at h
        simp [Query.fields, Query.aggregates, ← h, RowsetTypeString.into_cast_type]
    | some ags =>
      simp only [RowsetTypeString.new] at h
      cases hf : RowTypeString.new_fields table_alias fs relationships config with
      | error e => rw [hf] at h; exact absurd h (by simp)
      | ok flds =>
        rw [hf] at h
        cases ha : AggregatesTypeString.new table_alias ags config with
        | error e => rw [ha] at h; exact absurd h (by simp)
        | ok ats =>
          rw [ha] at h
          simp at h
          simp [Query.fields, Query.aggregates, ← h, RowsetTypeString.into_cast_type]

/-- C3: an Object selector against a Scalar type definition fails with a
mismatch naming Object as expected and the scalar's rendered type as got;
symmetrically for an Array selector; and every illegal pairing of
selector shape against non-nullable definition shape yields a
NestedFieldTypeMismatch naming the selector's shape as expected. -/
theorem C3_nested_mismatch :
    (∀ (t : ClickHouseDataType) (sel : List (String × Field))
        (relationships : List (String × Relationship)) (config : ServerConfig),
      FieldTypeString.new (.Scalar t) (some (.Object sel)) relationships config
        = .error (.NestedFieldTypeMismatch "Object" t.to_string)) ∧
    (∀ (t : ClickHouseDataType) (sel : NestedField)
        (relationships : List (String × Relationship)) (config : ServerConfig),
      FieldTypeString.new (.Scalar t) (some (.Array sel)) relationships config
        = .error (.NestedFieldTypeMismatch "Array" t.to_string)) ∧
    (∀ (type_definition : ClickHouseTypeDefinition) (nested : NestedField)
        (relationships : List (String × Relationship)) (config : ServerConfig),
      illegal_pairing type_definition.non_nullable nested →
      ∃ g, FieldTypeString.new type_definition (some nested) relationships config
        = .error (.NestedFieldTypeMismatch (expected_shape nested) g)) := by
  refine ⟨fun t sel rels cfg => rfl, fun t sel rels cfg => rfl, ?_⟩
  intro td nested rels cfg hip
  refine ⟨td.cast_type.to_string, ?_⟩
  show FieldTypeString.new_nested td nested rels cfg = _
  rw [FieldTypeString.new_nested.eq_def]
  cases hnn : td.non_nullable with
  | Scalar t =>
    cases nested with
    | Object sel => rfl
    | Array sel => rfl
  | Nullable inner => exact absurd hnn (non_nullable_not_nullable td inner)
  | Array et =>
    cases nested with
    | Object sel => rfl
    | Array sel => rw [hnn] at hip; simp [illegal_pairing] at hip
  | Object name ofs =>
    cases nested with
    | Object sel => rw [hnn] at hip; simp [illegal_pairing] at hip
    | Array sel => rfl

/-- C4: the alias order of the produced row shape, aggregate shape, and
nested object shape equals the alias order of the corresponding request
mapping, and rendering a field list into tuple members preserves that
order; applied at every recursion level this gives the order invariant
at every nesting depth. -/
theorem C4_alias_order :
    (∀ (table_alias : String) (fields : List (String × Field))
        (relationships : List (String × Relationship)) (config : ServerConfig)
        (rt : RowTypeString),
      RowTypeString.new table_alias fields relationships config = .ok rt →
      rt.fields.map Prod.fst = fields.map Prod.fst) ∧
    (∀ (table_alias : String) (aggregates : List (String × Aggregate))
        (config : ServerConfig) (ats : AggregatesTypeString),
      AggregatesTypeString.new table_alias aggregates config = .ok ats →
      ats.aggregates.map Prod.fst = aggregates.map Prod.fst) ∧
    (∀ (type_definition : ClickHouseTypeDefinition)
        (object_fields : List (Identifier × ClickHouseTypeDefinition))
        (subfields : List (String × Field))
        (relationships : List (String × Relationship)) (config : ServerConfig)
        (fts : List (String × FieldTypeString)),
      FieldTypeString.new_subfields type_definition object_fields subfields
        relationships config = .ok fts →
      fts.map Prod.fst = subfields.map Prod.fst) ∧
    (∀ l : List (String × FieldTypeString),
      (fields_into_cast_type l).map Prod.fst
        = l.map (fun p => some (Identifier.DoubleQuoted p.1))) := by
  refine ⟨?_, ?_, ?_, fields_into_cast_type_names⟩
  · intro table_alias fields relationships config rt h
    simp only [RowTypeString.new] at h
    split at h
    · exact absurd h (by simp)
    · rename_i fs hfs
      simp at h
      rw [← h]
      exact new_fields_aliases table_alias fields relationships config fs hfs
  · intro table_alias aggregates config ats h
    simp only [AggregatesTypeString.new] at h
    split at h
    · exact absurd h (by simp)
    · rename_i ps hps
      simp at h
      rw [← h]
      exact entries_aliases table_alias aggregates config ps hps
  · intro td ofs sfs rels cfg fts h
    exact new_subfields_aliases td ofs sfs rels cfg fts h

/-- C5: the compatibility check runs on the non-nullable form of the type
definition: whenever the non-nullable form succeeds the original
definition gives the same result, and an Array selector on
Nullable(Array(T)) behaves exactly as on Array(T). -/
theorem C5_nullable_unwrapped :
    (∀ (type_definition : ClickHouseTypeDefinition) (nested : NestedField)
        (relationships : List (String × Relationship)) (config : ServerConfig)
        (r : FieldTypeString),
      FieldTypeString.new type_definition.non_nullable (some nested) relationships config
        = .ok r →
      FieldTypeString.new type_definition (some nested) relationships config = .ok r) ∧
    (∀ (element_type : ClickHouseTypeDefinition) (sub : NestedField)
        (relationships : List (String × Relationship)) (config : ServerConfig),
      FieldTypeString.new (.Nullable (.Array element_type)) (some (.Array sub))
          relationships config
        = FieldTypeString.new (.Array element_type) (some (.Array sub))
          relationships config) := by
  constructor
  · intro td nested rels cfg r h
    show FieldTypeString.new_nested td nested rels cfg = _
    have h' : FieldTypeString.new_nested td.non_nullable nested rels cfg = .ok r := h
    rw [FieldTypeString.new_nested.eq_def] at h'
    rw [non_nullable_idem] at h'
    rw [FieldTypeString.new_nested.eq_def]
    split at h'
    · exact h'
    · rename_i name ofs sel heq
      split at h'
      · exact absurd h' (by simp)
      · rename_i fts heq2
        rw [heq] at heq2
        rw [new_subfields_ok_td_irrelevant sel (.Object name ofs) td ofs rels cfg fts heq2]
        exact h'
    · exact absurd h' (by simp)
    · exact absurd h' (by simp)
    · exact absurd h' (by simp)
    · exact absurd h' (by simp)
    · exact absurd h' (by simp)
    · exact absurd h' (by simp)
  · intro et sub rels cfg
    show FieldTypeString.new_nested (.Nullable (.Array et)) (.Array sub) rels cfg
      = FieldTypeString.new_nested (.Array et) (.Array sub) rels cfg
    rw [FieldTypeString.new_nested.eq_def]
    rw [FieldTypeString.new_nested.eq_def]
    simp [ClickHouseTypeDefinition.non_nullable]

/-- C7: alias-derived tuple member names (row fields, aggregates, nested
object subfields) render as double-quoted identifiers, while the
structural envelope member names are the unquoted identifiers rows and
aggregates. -/
theorem C7_quoting :
    (∀ (rs : RowsetTypeString) (ms : List (Option Identifier × ClickHouseDataType)),
      rs.into_cast_type = .Tuple ms →
      ∀ n ∈ ms.map Prod.fst,
        n = some (.Unquoted "rows") ∨ n = some (.Unquoted "aggregates")) ∧
    (∀ (rt : RowTypeString) (ms : List (Option Identifier × ClickHouseDataType)),
      rt.into_cast_type = .Tuple ms →
      ms.map Prod.fst = rt.fields.map (fun p => some (Identifier.DoubleQuoted p.1))) ∧
    (∀ (ats : AggregatesTypeString) (ms : List (Option Identifier × ClickHouseDataType)),
      ats.into_cast_type = .Tuple ms →
      ms.map Prod.fst = ats.aggregates.map (fun p => some (Identifier.DoubleQuoted p.1))) ∧
    (∀ (fields : List (String × FieldTypeString))
        (ms : List (Option Identifier × ClickHouseDataType)),
      (FieldTypeString.Object fields).into_cast_type = .Tuple ms →
      ms.map Prod.fst = fields.map (fun p => some (Identifier.DoubleQuoted p.1))) := by
  refine ⟨?_, ?_, ?_, ?_⟩
  · intro rs ms h n hn
    obtain ⟨rows, ats⟩ := rs
    cases rows with
    | none =>
      cases ats with
      | none => simp [RowsetTypeString.into_cast_type] at h
      | some a =>
        simp [RowsetTypeString.into_cast_type] at h
        rw [← h] at hn; simp at hn; tauto
    | some rt =>
      cases ats with
      | none =>
        simp [RowsetTypeString.into_cast_type] at h
        rw [← h] at hn; simp at hn; tauto
      | some a =>
        simp [RowsetTypeString.into_cast_type] at h
        rw [← h] at hn; simp at hn; tauto
  · intro rt ms h
    obtain ⟨fs⟩ := rt
    cases fs with
    | nil => simp [RowTypeString.into_cast_type] at h
    | cons f rest =>
      simp [RowTypeString.into_cast_type] at h
      rw [← h]
      simpa [RowTypeString.fields] using fields_into_cast_type_names (f :: rest)
  · intro ats ms h
    obtain ⟨ags⟩ := ats
    cases ags with
    | nil => simp [AggregatesTypeString.into_cast_type, empty_marker] at h
    | cons a rest =>
      simp [AggregatesTypeString.into_cast_type] at h
      rw [← h]
      simp [List.map_map]
  · intro fields ms h
    simp [FieldTypeString.into_cast_type] at h
    rw [← h]
    exact fields_into_cast_type_names fields

/-- C10: rows and aggregates presence is decided by Option presence, not
emptiness: a present-but-empty fields mapping with absent aggregates
renders a rows member wrapping the empty marker, and the bare top-level
empty marker arises only when both mappings are absent. -/
theorem C10_presence_by_some :
    (∀ (table_alias : String)
        (relationships : List (String × Relationship)) (config : ServerConfig),
      (RowsetTypeString.new table_alias (.mk (some []) none) relationships config).map
        RowsetTypeString.into_cast_type
        = .ok (.Tuple [(some (.Unquoted "rows"), .Array (.Map .Nothing .Nothing))])) ∧
    (∀ (table_alias : String) (query : Query)
        (relationships : List (String × Relationship)) (config : ServerConfig)
        (r : RowsetTypeString),
      RowsetTypeString.new table_alias query relationships config = .ok r →
      r.into_cast_type = .Map .Nothing .Nothing →
      query.fields = none ∧ query.aggregates = none) := by
  constructor
  · intro table_alias relationships config
    rfl
  · intro table_alias query relationships config r h hm
    obtain ⟨qf, qa⟩ := query
    cases qf with
    | none =>
      cases qa with
      | none => simp [Query.fields, Query.aggregates]
      | some ags =>
        simp only [RowsetTypeString.new] at h
        split at h
        · exact absurd h (by simp)
        · simp at h
          rw [← h] at hm
          simp [RowsetTypeString.into_cast_type] at hm
    | some fs =>
      cases qa with
      | none =>
        simp only [RowsetTypeString.new] at h
        split at h
        · exact absurd h (by simp)
        · simp at h
          rw [← h] at hm
          simp [RowsetTypeString.into_cast_type] at hm
      | some ags =>
        simp only [RowsetTypeString.new] at h
        split at h
        · exact absurd h (by simp)
        · split at h
          · exact absurd h (by simp)
          · simp at h
            rw [← h] at hm
            simp [RowsetTypeString.into_cast_type] at hm

/-- C6: given a resolvable collection and column, a single-column
aggregate request fails with UnknownAggregateFunction carrying the table,
column, column data type, and function name exactly when the function
name does not parse into a known identifier or the column type
definition's function table has no entry for it; otherwise it resolves to
the found entry's result data type. -/
theorem C6_unknown_aggregate_function
    (table_alias al column function : String) (config : ServerConfig)
    (return_type : String) (column_type : ClickHouseDataType)
    (h1 : get_return_type table_alias config = .ok return_type)
    (h2 : get_column column return_type config = .ok column_type) :
    (AggregatesTypeString.new table_alias [(al, .SingleColumn column function)] config
        = .error (.UnknownAggregateFunction table_alias column column_type function)
      ↔ ClickHouseSingleColumnAggregateFunction.from_str function = none ∨
        ∃ f, ClickHouseSingleColumnAggregateFunction.from_str function = some f ∧
          (ClickHouseTypeDefinition.from_table_column column_type column return_type
            config.namespace_separator).aggregate_functions.find?
            (fun q => q.1 == f) = none) ∧
    (∀ (f : ClickHouseSingleColumnAggregateFunction)
        (p : ClickHouseSingleColumnAggregateFunction × ClickHouseDataType),
      ClickHouseSingleColumnAggregateFunction.from_str function = some f →
      (ClickHouseTypeDefinition.from_table_column column_type column return_type
        config.namespace_separator).aggregate_functions.find? (fun q => q.1 == f) = some p →
      AggregatesTypeString.new table_alias [(al, .SingleColumn column function)] config
        = .ok ⟨[(al, p.2)]⟩) := by
  cases hf : ClickHouseSingleColumnAggregateFunction.from_str function with
  | none =>
    have hnew : AggregatesTypeString.new table_alias
        [(al, .SingleColumn column function)] config
        = .error (.UnknownAggregateFunction table_alias column column_type function) := by
      simp only [AggregatesTypeString.new, AggregatesTypeString.entries,
        AggregatesTypeString.entry, h1, h2, hf]
    constructor
    · rw [hnew]
      exact iff_of_true rfl (Or.inl rfl)
    · intro f p hsome hfound
      exact absurd hsome (by simp)
  | some f0 =>
    cases hfind : (ClickHouseTypeDefinition.from_table_column column_type column return_type
        config.namespace_separator).aggregate_functions.find? (fun q => q.1 == f0) with
    | none =>
      have hnew : AggregatesTypeString.new table_alias
          [(al, .SingleColumn column function)] config
          = .error (.UnknownAggregateFunction table_alias column column_type function) := by
        simp only [AggregatesTypeString.new, AggregatesTypeString.entries,
          AggregatesTypeString.entry, h1, h2, hf, hfind]
      constructor
      · rw [hnew]
        exact iff_of_true rfl (Or.inr ⟨f0, rfl, hfind⟩)
      · intro f p hsome hfound
        simp at hsome
        rw [← hsome] at hfound
        rw [hfind] at hfound
        exact absurd hfound (by simp)
    | some p0 =>
      have hnew : AggregatesTypeString.new table_alias
          [(al, .SingleColumn column function)] config
          = .ok ⟨[(al, p0.2)]⟩ := by
        simp only [AggregatesTypeString.new, AggregatesTypeString.entries,
          AggregatesTypeString.entry, h1, h2, hf, hfind]
      constructor
      · rw [hnew]
        refine iff_of_false (by simp) ?_
        rintro (hcon | ⟨f, hsome, hnone⟩)
        · exact absurd hcon (by simp)
        · simp at hsome
          rw [← hsome] at hnone
          rw [hfind] at hnone
          exact absurd hnone (by simp)
      · intro f p hsome hfound
        simp at hsome
        rw [← hsome] at hfound
        rw [hfind] at hfound
        simp at hfound
        rw [hnew, hfound]

mutual

theorem cast_type_from_data_type :
    ∀ (t : ClickHouseDataType) (ns sep : String),
      (ClickHouseTypeDefinition.from_data_type t ns sep).cast_type = t
| .Nothing, ns, sep => rfl
| .UInt32, ns, sep => rfl
| .UInt64, ns, sep => rfl
| .Float64, ns, sep => rfl
| .Simple s, ns, sep => rfl
| .Nullable x, ns, sep => by
    have h := cast_type_from_data_type x ns sep
    simp [ClickHouseTypeDefinition.from_data_type, ClickHouseTypeDefinition.cast_type, h]
| .Array x, ns, sep => by
    have h := cast_type_from_data_type x ns sep
    simp [ClickHouseTypeDefinition.from_data_type, ClickHouseTypeDefinition.cast_type, h]
| .Map k v, ns, sep => rfl
| .Tuple elems, ns, sep => by
    by_cases hn : all_members_named elems = true
    · have h := members_cast_type_from_data_type elems ns sep hn
      simp [ClickHouseTypeDefinition.from_data_type, hn,
        ClickHouseTypeDefinition.cast_type, h]
    · simp [ClickHouseTypeDefinition.from_data_type, hn,
        ClickHouseTypeDefinition.cast_type]

theorem members_cast_type_from_data_type :
    ∀ (elems : List (Option Identifier × ClickHouseDataType)) (ns sep : String),
      all_members_named elems = true →
      ClickHouseTypeDefinition.members_cast_type
        (ClickHouseTypeDefinition.members_from_data_type elems ns sep) = elems
| [], ns, sep, _ => rfl
| (some id, dt) :: rest, ns, sep, h => by
    have h1 := cast_type_from_data_type dt (ns ++ sep ++ id.value) sep
    have h2 := members_cast_type_from_data_type rest ns sep
      (by simpa [all_members_named] using h)
    simp [ClickHouseTypeDefinition.members_from_data_type,
      ClickHouseTypeDefinition.members_cast_type, h1, h2]
| (none, dt) :: rest, ns, sep, h => by simp [all_members_named] at h

/-- C8: classifying a schema column's raw data type via from_table_column
and building the field cast type for a leaf selection (no nested
selector) yields a Scalar cast type whose rendered data type is the
original raw column type unchanged. -/
theorem C8_round_trip :
    ∀ (data_type : ClickHouseDataType) (column_alias return_type sep : String)
      (relationships : List (String × Relationship)) (config : ServerConfig),
      FieldTypeString.new
          (ClickHouseTypeDefinition.from_table_column data_type column_alias return_type sep)
          none relationships config
        = .ok (.Scalar data_type) ∧
      (ClickHouseTypeDefinition.from_table_column data_type
        column_alias return_type sep).cast_type = data_type
| data_type, column_alias, return_type, sep, relationships, config => by
    have h := cast_type_from_data_type data_type (return_type ++ sep ++ column_alias) sep
    constructor
    · simp only [FieldTypeString.new, ClickHouseTypeDefinition.from_table_column, h]
    · simp only [ClickHouseTypeDefinition.from_table_column, h]

end

mutual

theorem new_fuel_adequate :
    ∀ (fuel : Nat) (table_alias : String) (query : Query)
      (relationships : List (String × Relationship)) (config : ServerConfig),
      query.depth < fuel →
      RowsetTypeString.new_fuel fuel table_alias query relationships config
        = some (RowsetTypeString.new table_alias query relationships config)
| 0, ta, q, rels, cfg, h => by omega
| f + 1, ta, .mk none none, rels, cfg, h => by
    simp [RowsetTypeString.new_fuel, RowsetTypeString.new]
| f + 1, ta, .mk none (some ags), rels, cfg, h => by
    simp only [RowsetTypeString.new_fuel, RowsetTypeString.new]
    cases ha : AggregatesTypeString.new ta ags cfg <;> simp [ha]
| f + 1, ta, .mk (some fields) none, rels, cfg, h => by
    have hf : fields_depth fields ≤ f := by
      simp [Query.depth] at h; omega
    have ih := new_fields_fuel_adequate f ta fields rels cfg hf
    simp only [RowsetTypeString.new_fuel, RowsetTypeString.new, ih]
    cases hnf : RowTypeString.new_fields ta fields rels cfg <;> simp [hnf]
| f + 1, ta, .mk (some fields) (some ags), rels, cfg, h => by
    have hf : fields_depth fields ≤ f := by
      simp [Query.depth] at h; omega
    have ih := new_fields_fuel_adequate f ta fields rels cfg hf
    simp only [RowsetTypeString.new_fuel, RowsetTypeString.new, ih]
    cases hnf : RowTypeString.new_fields ta fields rels cfg with
    | error e => simp [hnf]
    | ok fs =>
      simp [hnf]
      cases ha : AggregatesTypeString.new ta ags cfg <;> simp [ha]

theorem new_fields_fuel_adequate :
    ∀ (fuel : Nat) (table_alias : String) (fields : List (String × Field))
      (relationships : List (String × Relationship)) (config : ServerConfig),
      fields_depth fields ≤ fuel →
      RowTypeString.new_fields_fuel fuel table_alias fields relationships config
        = some (RowTypeString.new_fields table_alias fields relationships config)
| fuel, ta, [], rels, cfg, h => by
    simp [RowTypeString.new_fields_fuel, RowTypeString.new_fields]
| fuel, ta, (al, field) :: rest, rels, cfg, h => by
    have h' : field_depth field ≤ fuel ∧ fields_depth rest ≤ fuel := by
      simp [fields_depth, Nat.max_le] at h; exact h
    have ih1 := new_field_fuel_adequate fuel ta field rels cfg h'.1
    have ih2 := new_fields_fuel_adequate fuel ta rest rels cfg h'.2
    simp only [RowTypeString.new_fields_fuel, RowTypeString.new_fields, ih1, ih2]
    cases hf : RowTypeString.new_field ta field rels cfg with
    | error e => simp [hf]
    | ok ft =>
      simp [hf]
      cases hr : RowTypeString.new_fields ta rest rels cfg <;> simp [hr]

theorem new_field_fuel_adequate :
    ∀ (fuel : Nat) (table_alias : String) (field : Field)
      (relationships : List (String × Relationship)) (config : ServerConfig),
      field_depth field ≤ fuel →
      RowTypeString.new_field_fuel fuel table_alias field relationships config
        = some (RowTypeString.new_field table_alias field relationships config)
| fuel, ta, .Column column_alias none, rels, cfg, h => by
    simp only [RowTypeString.new_field_fuel, RowTypeString.new_field]
    cases h1 : get_return_type ta cfg with
    | error e => simp [h1]
    | ok rt =>
      simp [h1]
      cases h2 : get_column column_alias rt cfg with
      | error e => simp [h2]
      | ok ct => simp [h2]
| fuel, ta, .Column column_alias (some nested), rels, cfg, h => by
    have hd : nested_depth nested ≤ fuel := by
      simpa [field_depth] using h
    simp only [RowTypeString.new_field_fuel, RowTypeString.new_field]
    cases h1 : get_return_type ta cfg with
    | error e => simp [h1]
    | ok rt =>
      simp [h1]
      cases h2 : get_column column_alias rt cfg with
      | error e => simp [h2]
      | ok ct =>
        simp [h2]
        exact new_nested_fuel_adequate fuel
          (ClickHouseTypeDefinition.from_table_column ct column_alias rt
            cfg.namespace_separator) nested rels cfg hd
| fuel, ta, .Relationship subquery relationship_name, rels, cfg, h => by
    simp only [RowTypeString.new_field_fuel, RowTypeString.new_field]
    cases hrel : rels.lookup relationship_name with
    | none => simp [hrel]
    | some r =>
      simp [hrel]
      have hq : subquery.depth < fuel := by
        simp [field_depth] at h; omega
      have ih := new_fuel_adequate fuel r.target_collection subquery rels cfg hq
      rw [ih]
      cases hs : RowsetTypeString.new r.target_collection subquery rels cfg <;> simp [hs]

theorem new_nested_fuel_adequate :
    ∀ (fuel : Nat) (type_definition : ClickHouseTypeDefinition) (nested : NestedField)
      (relationships : List (String × Relationship)) (config : ServerConfig),
      nested_depth nested ≤ fuel →
      FieldTypeString.new_nested_fuel fuel type_definition nested relationships config
        = some (FieldTypeString.new_nested type_definition nested relationships config)
| fuel, td, .Array sub, rels, cfg, h => by
    rw [FieldTypeString.new_nested_fuel.eq_def, FieldTypeString.new_nested.eq_def]
    cases hnn : td.non_nullable with
    | Scalar t => rfl
    | Nullable inner => rfl
    | Array et =>
      have hd : nested_depth sub ≤ fuel := by
        simpa [nested_depth] using h
      have ih := new_nested_fuel_adequate fuel et sub rels cfg hd
      simp only [ih]
      cases hr : FieldTypeString.new_nested et sub rels cfg <;> simp [hr]
    | Object name ofs => rfl
| fuel, td, .Object sel, rels, cfg, h => by
    rw [FieldTypeString.new_nested_fuel.eq_def, FieldTypeString.new_nested.eq_def]
    cases hnn : td.non_nullable with
    | Scalar t => rfl
    | Nullable inner => rfl
    | Array et => rfl
    | Object name ofs =>
      have hd : fields_depth sel ≤ fuel := by
        simpa [nested_depth] using h
      have ih := new_subfields_fuel_adequate fuel td ofs sel rels cfg hd
      simp only [ih]
      cases hr : FieldTypeString.new_subfields td ofs sel rels cfg <;> simp [hr]

theorem new_subfields_fuel_adequate :
    ∀ (fuel : Nat) (type_definition : ClickHouseTypeDefinition)
      (object_fields : List (Identifier × ClickHouseTypeDefinition))
      (subfields : List (String × Field))
      (relationships : List (String × Relationship)) (config : ServerConfig),
      fields_depth subfields ≤ fuel →
      FieldTypeString.new_subfields_fuel fuel type_definition object_fields subfields
          relationships config
        = some (FieldTypeString.new_subfields type_definition object_fields subfields
          relationships config)
| fuel, td, ofs, [], rels, cfg, h => by
    simp [FieldTypeString.new_subfields_fuel, FieldTypeString.new_subfields]
| fuel, td, ofs, (al, field) :: rest, rels, cfg, h => by
    have h' : field_depth field ≤ fuel ∧ fields_depth rest ≤ fuel := by
      simp [fields_depth, Nat.max_le] at h; exact h
    have ih1 := new_subfield_fuel_adequate fuel td ofs field rels cfg h'.1
    have ih2 := new_subfields_fuel_adequate fuel td ofs rest rels cfg h'.2
    simp only [FieldTypeString.new_subfields_fuel, FieldTypeString.new_subfields, ih1, ih2]
    cases hf : FieldTypeString.new_subfield td ofs field rels cfg with
    | error e => simp [hf]
    | ok ft =>
      simp [hf]
      cases hr : FieldTypeString.new_subfields td ofs rest rels cfg <;> simp [hr]

theorem new_subfield_fuel_adequate :
    ∀ (fuel : Nat) (type_definition : ClickHouseTypeDefinition)
      (object_fields : List (Identifier × ClickHouseTypeDefinition))
      (field : Field)
      (relationships : List (String × Relationship)) (config : ServerConfig),
      field_depth field ≤ fuel →
      FieldTypeString.new_subfield_fuel fuel type_definition object_fields field
          relationships config
        = some (FieldTypeString.new_subfield type_definition object_fields field
          relationships config)
| fuel, td, ofs, .Column column none, rels, cfg, h => by
    simp only [FieldTypeString.new_subfield_fuel, FieldTypeString.new_subfield]
    cases hg : object_fields_get ofs column <;> simp [hg]
| fuel, td, ofs, .Column column (some nested), rels, cfg, h => by
    have hd : nested_depth nested ≤ fuel := by
      simpa [field_depth] using h
    simp only [FieldTypeString.new_subfield_fuel, FieldTypeString.new_subfield]
    cases hg : object_fields_get ofs column with
    | none => simp [hg]
    | some td2 =>
      simp [hg]
      exact new_nested_fuel_adequate fuel td2 nested rels cfg hd
| fuel, td, ofs, .Relationship subquery relationship_name, rels, cfg, h => by
    simp only [FieldTypeString.new_subfield_fuel, FieldTypeString.new_subfield]
    cases hrel : rels.lookup relationship_name with
    | none => simp [hrel]
    | some r =>
      simp [hrel]
      have hq : subquery.depth < fuel := by
        simp [field_depth] at h; omega
      have ih := new_fuel_adequate fuel r.target_collection subquery rels cfg hq
      rw [ih]
      cases hs : RowsetTypeString.new r.target_collection subquery rels cfg <;> simp [hs]

end

/-- C9: the mutually recursive translation terminates with relationship
recursion depth bounded by the caller-supplied request: for every fuel
budget exceeding the query's relationship-nesting depth, the fuel-indexed
builder never exhausts its fuel and agrees with the total builder, for
every relationships map including cyclic or self-referencing ones. -/
theorem C9_termination_depth_bound :
    ∀ (fuel : Nat) (table_alias : String) (query : Query)
      (relationships : List (String × Relationship)) (config : ServerConfig),
      query.depth < fuel →
      RowsetTypeString.new_fuel fuel table_alias query relationships config
        = some (RowsetTypeString.new table_alias query relationships config) :=
  new_fuel_adequate

/-- C2: a nested Object field selection with zero requested subfields is
rendered as the empty tuple, not the empty marker: the builder's
substitution is applied for the row shape and the aggregate shape but not
inside nested object fragments, contradicting the every-nesting-level
substitution rule while ClickHouse's grammar forbids empty tuples. -/
theorem C2_nested_empty_object_renders_empty_tuple :
    (RowsetTypeString.new "events" c2_query [] witness_config).map
        RowsetTypeString.into_cast_type
      = .ok (.Tuple [(some (.Unquoted "rows"),
          .Array (.Tuple [(some (.DoubleQuoted "x"), .Tuple [])]))]) ∧
    ClickHouseDataType.Tuple ([] : List (Option Identifier × ClickHouseDataType))
      ≠ empty_marker :=
  ⟨rfl, by simp [empty_marker]⟩

/-- Witness for C1 at a concrete query with both fields and aggregates. -/
theorem C1_presence_table_witness :
    RowsetTypeString.new "events" c1_query [] witness_config = .ok c1_rowset ∧
    (∃ t u, c1_rowset.into_cast_type = .Tuple
      [(some (.Unquoted "rows"), .Array t), (some (.Unquoted "aggregates"), u)]) :=
  ⟨rfl, (C1_presence_table "events" c1_query [] witness_config c1_rowset rfl).2.2.2 rfl rfl⟩

/-- Witness for C3 at an Object selector over a scalar UInt32 column. -/
theorem C3_nested_mismatch_witness :
    illegal_pairing (ClickHouseTypeDefinition.Scalar .UInt32).non_nullable (.Object []) ∧
    (∃ g, FieldTypeString.new (.Scalar .UInt32) (some (.Object [])) [] witness_config
      = .error (.NestedFieldTypeMismatch (expected_shape (.Object [])) g)) :=
  ⟨by simp [ClickHouseTypeDefinition.non_nullable, illegal_pairing],
   C3_nested_mismatch.2.2 (.Scalar .UInt32) (.Object []) [] witness_config
     (by simp [ClickHouseTypeDefinition.non_nullable, illegal_pairing])⟩

/-- Witness for C4 at a two-field row selection. -/
theorem C4_alias_order_witness :
    RowTypeString.new "events"
        [("id", .Column "id" none), ("tags", .Column "tags" none)] [] witness_config
      = .ok (.mk [("id", .Scalar .UInt64), ("tags", .Scalar (.Array (.Simple "String")))]) ∧
    (RowTypeString.mk [("id", .Scalar .UInt64),
        ("tags", .Scalar (.Array (.Simple "String")))]).fields.map Prod.fst
      = ([("id", Field.Column "id" none),
          ("tags", Field.Column "tags" none)]).map Prod.fst :=
  ⟨rfl, C4_alias_order.1 "events"
    [("id", .Column "id" none), ("tags", .Column "tags" none)] [] witness_config
    (.mk [("id", .Scalar .UInt64), ("tags", .Scalar (.Array (.Simple "String")))]) rfl⟩

/-- Witness for C5 at an Array selector over a Nullable(Array(Object)). -/
theorem C5_nullable_unwrapped_witness :
    FieldTypeString.new (ClickHouseTypeDefinition.Nullable (.Array (.Object "o"
        [(.DoubleQuoted "a", .Scalar .UInt32)]))).non_nullable
      (some (.Array (.Object [("x", .Column "a" none)]))) [] witness_config
      = .ok (.Array (.Object [("x", .Scalar .UInt32)])) ∧
    FieldTypeString.new
      (.Nullable (.Array (.Object "o" [(.DoubleQuoted "a", .Scalar .UInt32)])))
      (some (.Array (.Object [("x", .Column "a" none)]))) [] witness_config
      = .ok (.Array (.Object [("x", .Scalar .UInt32)])) :=
  ⟨rfl, C5_nullable_unwrapped.1
    (.Nullable (.Array (.Object "o" [(.DoubleQuoted "a", .Scalar .UInt32)])))
    (.Array (.Object [("x", .Column "a" none)])) [] witness_config
    (.Array (.Object [("x", .Scalar .UInt32)])) rfl⟩

/-- Witness for C6 at the known aggregate function sum over UInt64. -/
theorem C6_unknown_aggregate_function_witness :
    get_return_type "events" witness_config = .ok "events_row" ∧
    get_column "id" "events_row" witness_config = .ok .UInt64 ∧
    AggregatesTypeString.new "events" [("total", .SingleColumn "id" "sum")] witness_config
      = .ok ⟨[("total", .UInt64)]⟩ :=
  ⟨rfl, rfl,
    (C6_unknown_aggregate_function "events" "total" "id" "sum" witness_config "events_row"
      .UInt64 rfl rfl).2 .sum (.sum, .UInt64) rfl rfl⟩

/-- Witness for C7 at a rows-only rowset fragment. -/
theorem C7_quoting_witness :
    (RowsetTypeString.mk (some (.mk [("id", FieldTypeString.Scalar .UInt64)])) none).into_cast_type
      = .Tuple [(some (.Unquoted "rows"),
          .Array (.Tuple [(some (.DoubleQuoted "id"), .UInt64)]))] ∧
    (∀ n ∈ ([((some (Identifier.Unquoted "rows") : Option Identifier),
        ClickHouseDataType.Array (.Tuple [(some (.DoubleQuoted "id"), .UInt64)]))].map Prod.fst),
      n = some (.Unquoted "rows") ∨ n = some (.Unquoted "aggregates")) :=
  ⟨rfl, C7_quoting.1
    (RowsetTypeString.mk (some (.mk [("id", FieldTypeString.Scalar .UInt64)])) none)
    [((some (Identifier.Unquoted "rows") : Option Identifier),
      ClickHouseDataType.Array (.Tuple [(some (.DoubleQuoted "id"), .UInt64)]))] rfl⟩

/-- Witness for C9 at a self-referencing relationship with fuel 2. -/
theorem C9_termination_depth_bound_witness :
    c9_query.depth < 2 ∧
    RowsetTypeString.new_fuel 2 "t" c9_query [("self", ⟨"t"⟩)] witness_config
      = some (RowsetTypeString.new "t" c9_query [("self", ⟨"t"⟩)] witness_config) :=
  ⟨by decide, C9_termination_depth_bound 2 "t" c9_query [("self", ⟨"t"⟩)]
    witness_config (by decide)⟩

/-- Witness for C10 at the empty query. -/
theorem C10_presence_by_some_witness :
    RowsetTypeString.new "events" (.mk none none) [] witness_config = .ok (.mk none none) ∧
    (RowsetTypeString.mk none none).into_cast_type = .Map .Nothing .Nothing ∧
    ((Query.mk none none).fields = none ∧ (Query.mk none none).aggregates = none) :=
  ⟨rfl, rfl, C10_presence_by_some.2 "events" (.mk none none) [] witness_config
    (.mk none none) rfl rfl⟩

end NdcClickhouse
